import Mathlib

/-!
DesignPatterns: the observer example (WeatherStation) and the builder example.

Shallow embedding of `Implementations/ObserverMethod.cpp` and `BuilderMethod.cpp`.

* An `Observer*` is a pointer; only its identity matters to the station, so it
  is a natural number (the address).
* `float` values are only stored and forwarded, never computed with, so the
  embedding is generic in the type `F` of float values. A field that was never
  assigned holds `none`.
* `std::vector<Observer*>` is the list of its elements `[begin, end)`.
* `observer->update(t, h, p)` is an observable event; a pass over the registry
  yields the list of events in the order the calls are made.
-/

namespace WeatherStationModel

/-! ## The library algorithms used by `removeObserver` -/

section Algorithms

variable {α : Type} [DecidableEq α]

/-- The call `std::find(first, first + n, value)` on the storage `buf`: the first
index in the range holding `value`, or the end of the range. -/
def stdFind (value : α) (buf : List α) : Nat → Nat → Nat
  | 0, first => first
  | n + 1, first =>
    if buf[first]? = some value then first else stdFind value buf n (first + 1)

/-- The compaction loop of `std::remove`:
`for (; first != last; ++first) if (!(*first == value)) { *result = move(*first); ++result; }`
with `n = last - first`. Returns the storage and the final `result`. -/
def compactLoop (value : α) : Nat → Nat → Nat → List α → List α × Nat
  | 0, _, result, buf => (buf, result)
  | n + 1, first, result, buf =>
    match buf[first]? with
    | some x =>
      if x = value then compactLoop value n (first + 1) result buf
      else compactLoop value n (first + 1) (result + 1) (buf.set result x)
    | none => (buf, result)

/-- The call `std::remove(first, last, value)` on the storage `buf`: find the first
match, then shift every later non-matching element down. Returns the storage
after the call and the returned iterator (the new logical end). Slots at or
after the returned index keep whatever they held. -/
def stdRemove (buf : List α) (first last : Nat) (value : α) : List α × Nat :=
  let found := stdFind value buf (last - first) first
  if found = last then (buf, found)
  else compactLoop value (last - (found + 1)) (found + 1) found buf

/-- The call `v.erase(first, last)` on a vector with elements `v`: the elements
before `first` followed by those from `last` on. -/
def erase (v : List α) (first last : Nat) : List α :=
  v.take first ++ v.drop last

end Algorithms

/-! ## The station -/

/-- An `Observer*`: the address of the observer object. -/
abbrev Observer := Nat

/-- One call `observer->update(temperature, humidity, pressure)`. A `float`
argument read from a field that was never assigned has no determinate value:
`none`. -/
structure Update (F : Type) where
  observer : Observer
  temperature : Option F
  humidity : Option F
  pressure : Option F
deriving DecidableEq

/-- The class `WeatherStation`. The three `float` fields have no initialiser and
the class has no constructor, so they hold no determinate value (`none`) until
`setWeatherData` assigns them. -/
structure WeatherStation (F : Type) where
  observers : List Observer
  temperature : Option F
  humidity : Option F
  pressure : Option F
deriving DecidableEq

variable {F : Type}

/-- The declaration `WeatherStation weatherStation;`: an empty vector and three
unassigned floats. -/
def WeatherStation.fresh : WeatherStation F :=
  { observers := [], temperature := none, humidity := none, pressure := none }

/-- The method `addObserver`: `observers.push_back(observer)`. -/
def WeatherStation.addObserver (s : WeatherStation F) (observer : Observer) :
    WeatherStation F :=
  { s with observers := s.observers ++ [observer] }

/-- The method `removeObserver`:
`observers.erase(remove(observers.begin(), observers.end(), observer), observers.end())`. -/
def WeatherStation.removeObserver (s : WeatherStation F) (observer : Observer) :
    WeatherStation F :=
  let r := stdRemove s.observers 0 s.observers.length observer
  { s with observers := erase r.1 r.2 r.1.length }

/-- The body of `for (Observer* observer : observers) observer->update(t, h, p);`
over the remaining elements of the range. -/
def notifyLoop (t h p : Option F) : List Observer → List (Update F)
  | [] => []
  | observer :: rest => ⟨observer, t, h, p⟩ :: notifyLoop t h p rest

/-- The method `notifyObservers` (public): the calls it makes. The observers of
the source only print, so the station is not changed by the pass. -/
def WeatherStation.notifyObservers (s : WeatherStation F) : List (Update F) :=
  notifyLoop s.temperature s.humidity s.pressure s.observers

/-- The method `setWeatherData`: assign the three fields, then `notifyObservers()`.
Returns the station after the call and the calls made before it returns. -/
def WeatherStation.setWeatherData (s : WeatherStation F) (temp hum press : F) :
    WeatherStation F × List (Update F) :=
  let s1 : WeatherStation F :=
    { s with temperature := some temp, humidity := some hum, pressure := some press }
  (s1, s1.notifyObservers)

/-! ## Sequences of public operations -/

/-- One call of a public method of `WeatherStation`. -/
inductive Op (F : Type) where
  | addObserver (observer : Observer)
  | removeObserver (observer : Observer)
  | setWeatherData (temp hum press : F)
  | notifyObservers

/-- Executing one public method: the station afterwards and the `update` calls
made during the method. Only `setWeatherData` and `notifyObservers` contain a
call of `update`. -/
def step (s : WeatherStation F) : Op F → WeatherStation F × List (Update F)
  | .addObserver o => (s.addObserver o, [])
  | .removeObserver o => (s.removeObserver o, [])
  | .setWeatherData t h p => s.setWeatherData t h p
  | .notifyObservers => (s, s.notifyObservers)

/-- Executing a sequence of public methods one after the other: the station
afterwards and all `update` calls made, in the order they were made. -/
def run (s : WeatherStation F) : List (Op F) → WeatherStation F × List (Update F)
  | [] => (s, [])
  | op :: rest => ((run (step s op).1 rest).1, (step s op).2 ++ (run (step s op).1 rest).2)

/-- The arguments of the most recent `setWeatherData` in a sequence of calls, if
there is one. -/
def lastSet (ops : List (Op F)) : Option (F × F × F) :=
  ops.foldl (fun acc op =>
    match op with
    | .setWeatherData t h p => some (t, h, p)
    | _ => acc) none

/-- The three arguments an `update` call carries. -/
def Update.args (u : Update F) : Option F × Option F × Option F :=
  (u.temperature, u.humidity, u.pressure)

/-- The three stored fields of a station. -/
def WeatherStation.fields (s : WeatherStation F) : Option F × Option F × Option F :=
  (s.temperature, s.humidity, s.pressure)

/-- The field contents after the most recent assignment `v`, or those of a
station that was never assigned. -/
def storedAs : Option (F × F × F) → Option F × Option F × Option F
  | some (t, h, p) => (some t, some h, some p)
  | none => (none, none, none)

/-! ## The literals of `main`

The `float` values passed in `main`, as IEEE-754 single precision bit patterns. -/

/-- The float `22.5`. -/
def f22_5 : Nat := 0x41b40000
/-- The float `65.0`. -/
def f65_0 : Nat := 0x42820000
/-- The float nearest to `1013.2`. -/
def f1013_2 : Nat := 0x447d4ccd
/-- The float `24.5`. -/
def f24_5 : Nat := 0x41c40000
/-- The float `55.0`. -/
def f55_0 : Nat := 0x425c0000
/-- The float `1010.0`. -/
def f1010_0 : Nat := 0x447c8000

/-- The address of `phoneDisplay` in `main`. -/
def phoneDisplay : Observer := 1
/-- The address of `desktopDisplay` in `main`. -/
def desktopDisplay : Observer := 2

/-! ## Observers that call back into the station

`Observer::update` is virtual, so an observer can hold the station and call
`removeObserver` from inside `update`. The range-based `for` of
`notifyObservers` evaluates `observers.begin()` and `observers.end()` once, on
entry, and then walks the storage between the two; `removeObserver` compacts
that same storage in place. (By the language rules the `erase` invalidates the
iterators the loop holds; the model below follows what the contiguous layout of
`std::vector` then does.) -/

/-- The vector during a pass of `notifyObservers`: `slots` is the storage
starting at `begin()`, `size` the current number of elements. A slot at or
beyond `size` is no longer an element, but still holds the pointer last written
to it (a pointer has no destructor). -/
structure LiveVector where
  slots : List Observer
  size : Nat
deriving DecidableEq

/-- The method `removeObserver` on the live vector: `std::remove` over
`[begin(), end())`, then `erase(result, end())`, which for a range that reaches
the end only moves `end()` down to `result`. -/
def LiveVector.removeObserver (v : LiveVector) (observer : Observer) : LiveVector :=
  let r := stdRemove v.slots 0 v.size observer
  { slots := r.1, size := r.2 }

/-- The loop of `notifyObservers` with the iterators fixed on entry: `it` is the
current position and `n` the distance to the cached `end()`. The `update` of each
observer called runs `removeObserver` for every entry of `callback observer`. -/
def notifyLoopLive (callback : Observer → List Observer) (t h p : Option F) :
    Nat → Nat → LiveVector → LiveVector × List (Update F)
  | 0, _, v => (v, [])
  | n + 1, it, v =>
    match v.slots[it]? with
    | none => (v, [])
    | some observer =>
      let v1 := (callback observer).foldl LiveVector.removeObserver v
      ((notifyLoopLive callback t h p n (it + 1) v1).1,
        ⟨observer, t, h, p⟩ :: (notifyLoopLive callback t h p n (it + 1) v1).2)

/-- The method `setWeatherData` when observers may call `removeObserver` from
`update`: the station afterwards and the calls made. -/
def WeatherStation.setWeatherDataLive (callback : Observer → List Observer)
    (s : WeatherStation F) (temp hum press : F) : WeatherStation F × List (Update F) :=
  let r := notifyLoopLive callback (some temp) (some hum) (some press)
    s.observers.length 0 { slots := s.observers, size := s.observers.length }
  ({ observers := r.1.slots.take r.1.size, temperature := some temp,
     humidity := some hum, pressure := some press }, r.2)

/-- An observer whose `update` unsubscribes itself: observer `1` calls
`removeObserver(this)`; every other observer only displays. -/
def selfRemoving : Observer → List Observer
  | 1 => [1]
  | _ => []

/-- An observer whose `update` unsubscribes a later one: observer `1` calls
`removeObserver` for observer `2`; every other observer only displays. -/
def removingNext : Observer → List Observer
  | 1 => [2]
  | _ => []

end WeatherStationModel

/-! # The builder example (`BuilderMethod.cpp`) -/

namespace BuilderModel

/-- The class `ComputerBuilder`; the defaults are the member initialisers
(`int m_ram = 0`, empty strings, empty vector). An `int` is an integer; no
arithmetic is done on it. -/
structure ComputerBuilder where
  m_cpu : String := ""
  m_ram : Int := 0
  m_storage : String := ""
  m_storageType : String := ""
  m_gpu : String := ""
  m_peripherals : List String := []
deriving DecidableEq

/-- The class `Computer`. -/
structure Computer where
  cpu : String
  ram : Int
  storage : String
  storageType : String
  gpu : String
  peripherals : List String
deriving DecidableEq

/-- The static method `ComputerBuilder::create`. -/
def ComputerBuilder.create : ComputerBuilder := {}

/-- The method `setCPU`. -/
def ComputerBuilder.setCPU (b : ComputerBuilder) (cpu : String) : ComputerBuilder :=
  { b with m_cpu := cpu }

/-- The method `setRAM`. -/
def ComputerBuilder.setRAM (b : ComputerBuilder) (ram : Int) : ComputerBuilder :=
  { b with m_ram := ram }

/-- The method `setStorage`: `m_storage = to_string(storageSize)`. -/
def ComputerBuilder.setStorage (b : ComputerBuilder) (storageSize : Int) (type : String) :
    ComputerBuilder :=
  { b with m_storage := toString storageSize, m_storageType := type }

/-- The method `setGPU`. -/
def ComputerBuilder.setGPU (b : ComputerBuilder) (gpu : String) : ComputerBuilder :=
  { b with m_gpu := gpu }

/-- The method `addPeripheral`: `m_peripherals.push_back(peripheral)`. -/
def ComputerBuilder.addPeripheral (b : ComputerBuilder) (peripheral : String) :
    ComputerBuilder :=
  { b with m_peripherals := b.m_peripherals ++ [peripheral] }

/-- The constructor `Computer(const ComputerBuilder&)`: copies the six members. -/
def Computer.ofBuilder (builder : ComputerBuilder) : Computer :=
  { cpu := builder.m_cpu, ram := builder.m_ram, storage := builder.m_storage,
    storageType := builder.m_storageType, gpu := builder.m_gpu,
    peripherals := builder.m_peripherals }

/-- The method `build`: the builder after the call, and either the message of
the `runtime_error` thrown or the computer returned. -/
def ComputerBuilder.build (b : ComputerBuilder) : ComputerBuilder × Except String Computer :=
  if b.m_cpu = "" then (b, .error "CPU must be specified")
  else if b.m_ram = 0 then (b, .error "RAM must be specified")
  else (b, .ok (Computer.ofBuilder b))

/-- The builder chain of `ComputerDirector::buildGamingComputer`, before `build`. -/
def gamingBuilder : ComputerBuilder :=
  (((((((ComputerBuilder.create.setCPU "Intel Core i9").setRAM 32).setStorage 1000 "SSD").setGPU
    "NVIDIA RTX 4090").addPeripheral "Mechanical Keyboard").addPeripheral
    "Gaming Mouse").addPeripheral "Gaming Headset")

end BuilderModel

namespace WeatherStationModel

variable {F : Type}

/-! ## Basic facts about the library algorithms -/

section AlgorithmLemmas

variable {α : Type} [DecidableEq α]

theorem stdFind_ge (value : α) (buf : List α) (n first : Nat) :
    first ≤ stdFind value buf n first := by
  induction n generalizing first with
  | zero => simp [stdFind]
  | succ n ih =>
    unfold stdFind
    split
    · exact le_rfl
    · exact Nat.le_of_succ_le (ih (first + 1))

theorem stdFind_le (value : α) (buf : List α) (n first : Nat) :
    stdFind value buf n first ≤ first + n := by
  induction n generalizing first with
  | zero => simp [stdFind]
  | succ n ih =>
    unfold stdFind
    split
    · omega
    · have := ih (first + 1); omega

/-- Nothing before the index returned by `stdFind` matches. -/
theorem stdFind_filter_before (value : α) (buf : List α) (n first : Nat)
    (hlen : first + n ≤ buf.length) :
    ((buf.drop first).take (stdFind value buf n first - first)).filter (fun x => x ≠ value)
      = (buf.drop first).take (stdFind value buf n first - first) := by
  induction n generalizing first with
  | zero => simp [stdFind]
  | succ n ih =>
    unfold stdFind
    have hlt : first < buf.length := by omega
    split
    · simp
    · rename_i hne
      have hge := stdFind_ge value buf n (first + 1)
      have hsub : stdFind value buf n (first + 1) - first
          = (stdFind value buf n (first + 1) - (first + 1)) + 1 := by omega
      have hx : buf[first] ≠ value := by
        intro h
        apply hne
        rw [List.getElem?_eq_getElem hlt, h]
      rw [hsub, List.drop_eq_getElem_cons hlt, List.take_succ_cons]
      rw [List.filter_cons_of_pos (by simpa using hx)]
      rw [ih (first + 1) (by omega)]

/-- When `stdFind` stops before the end of the range, it stops at a match. -/
theorem stdFind_found (value : α) (buf : List α) (n first : Nat)
    (h : stdFind value buf n first < first + n) :
    buf[stdFind value buf n first]? = some value := by
  induction n generalizing first with
  | zero => simp [stdFind] at h
  | succ n ih =>
    unfold stdFind at h ⊢
    split
    · assumption
    · rename_i hne
      rw [if_neg hne] at h
      exact ih (first + 1) (by omega)

/-- The compaction loop leaves, below the returned index, what was below `result`
followed by the scanned elements that differ from `value`, in order. -/
theorem compactLoop_take (value : α) (n first result : Nat) (buf : List α)
    (hr : result ≤ first) (hlen : first + n ≤ buf.length) :
    (compactLoop value n first result buf).1.take (compactLoop value n first result buf).2
      = buf.take result ++ ((buf.drop first).take n).filter (fun x => x ≠ value) := by
  induction n generalizing first result buf with
  | zero => simp [compactLoop]
  | succ n ih =>
    have hlt : first < buf.length := by omega
    unfold compactLoop
    rw [List.getElem?_eq_getElem hlt]
    simp only
    rw [List.drop_eq_getElem_cons hlt, List.take_succ_cons]
    split
    · rename_i heq
      rw [ih (first + 1) result buf (by omega) (by omega)]
      rw [List.filter_cons_of_neg (by simpa using heq)]
    · rename_i hne
      have hrl : result < buf.length := by omega
      rw [ih (first + 1) (result + 1) (buf.set result buf[first]) (by omega)
        (by simpa using (by omega : first + 1 + n ≤ buf.length))]
      rw [List.filter_cons_of_pos (by simpa using hne)]
      rw [List.drop_set_of_lt _ _ (by omega : result < first + 1)]
      have htake : (buf.set result buf[first]).take result = buf.take result := by
        rw [List.set_take, List.set_eq_of_length_le]
        simp [List.length_take]
      rw [List.take_succ, htake]
      simp [hrl]

/-- Refinement: `std::remove` over the whole vector followed by `erase` to the
end is the filter that drops every element equal to `value`. -/
theorem erase_stdRemove_eq_filter (v : List α) (value : α) :
    erase (stdRemove v 0 v.length value).1 (stdRemove v 0 v.length value).2
        (stdRemove v 0 v.length value).1.length
      = v.filter (fun x => x ≠ value) := by
  have hpre := stdFind_filter_before value v v.length 0 (by simp)
  have hle := stdFind_le value v v.length 0
  simp only [Nat.zero_add, Nat.sub_zero, List.drop_zero] at hpre hle
  unfold stdRemove erase
  simp only [Nat.sub_zero]
  split
  · rename_i hend
    simp only [hend, List.take_length, List.drop_length, List.append_nil] at hpre ⊢
    exact hpre.symm
  · rename_i hne
    have hlt : stdFind value v v.length 0 < v.length := lt_of_le_of_ne hle hne
    have hfound := stdFind_found value v v.length 0 (by simpa using hlt)
    rw [List.getElem?_eq_getElem hlt] at hfound
    have hval : v[stdFind value v v.length 0] = value := by simpa using hfound
    have hloop := compactLoop_take value (v.length - (stdFind value v v.length 0 + 1))
      (stdFind value v v.length 0 + 1) (stdFind value v v.length 0) v (by omega) (by omega)
    rw [List.drop_length, List.append_nil, hloop]
    have htk : (v.drop (stdFind value v v.length 0 + 1)).take
        (v.length - (stdFind value v v.length 0 + 1))
        = v.drop (stdFind value v v.length 0 + 1) := by
      apply List.take_of_length_le
      simp
    rw [htk]
    conv_rhs => rw [← List.take_append_drop (stdFind value v v.length 0) v]
    rw [List.filter_append, hpre, List.drop_eq_getElem_cons hlt]
    rw [List.filter_cons_of_neg (by simpa using hval)]

end AlgorithmLemmas

/-! ## Facts about the station -/

theorem notifyLoop_eq_map (t h p : Option F) (l : List Observer) :
    notifyLoop t h p l = l.map (fun o => (⟨o, t, h, p⟩ : Update F)) := by
  induction l with
  | nil => rfl
  | cons o rest ih => simp [notifyLoop, ih]

theorem removeObserver_observers (s : WeatherStation F) (l : Observer) :
    (s.removeObserver l).observers = s.observers.filter (fun x => x ≠ l) := by
  simp only [WeatherStation.removeObserver]
  exact erase_stdRemove_eq_filter s.observers l

theorem removeObserver_fields (s : WeatherStation F) (l : Observer) :
    (s.removeObserver l).fields = s.fields := rfl

theorem run_append (s : WeatherStation F) (xs ys : List (Op F)) :
    run s (xs ++ ys) = ((run (run s xs).1 ys).1, (run s xs).2 ++ (run (run s xs).1 ys).2) := by
  induction xs generalizing s with
  | nil => simp [run]
  | cons op rest ih => simp [run, ih, List.append_assoc]

/-- The calls made by one method all carry the fields stored when it returns. -/
theorem step_calls_args (s : WeatherStation F) (op : Op F) :
    ∀ u ∈ (step s op).2, u.args = (step s op).1.fields := by
  intro u hu
  cases op <;>
    simp [step, WeatherStation.setWeatherData, WeatherStation.notifyObservers,
      notifyLoop_eq_map] at hu
  all_goals
    obtain ⟨o, _, rfl⟩ := hu
    rfl

/-- The calls made by one method go to observers in the registry when it returns. -/
theorem step_calls_observer (s : WeatherStation F) (op : Op F) :
    ∀ u ∈ (step s op).2, u.observer ∈ (step s op).1.observers := by
  intro u hu
  cases op <;>
    simp [step, WeatherStation.setWeatherData, WeatherStation.notifyObservers,
      notifyLoop_eq_map] at hu
  all_goals
    obtain ⟨o, ho, rfl⟩ := hu
    exact ho

/-- The stored fields follow the most recent `setWeatherData`. -/
theorem run_fields (s : WeatherStation F) (ops : List (Op F)) (acc : Option (F × F × F))
    (hs : s.fields = storedAs acc) :
    (run s ops).1.fields = storedAs (ops.foldl (fun acc op =>
      match op with
      | .setWeatherData t h p => some (t, h, p)
      | _ => acc) acc) := by
  induction ops generalizing s acc with
  | nil => simpa [run] using hs
  | cons op rest ih =>
    simp only [run, List.foldl_cons]
    apply ih
    cases op with
    | addObserver o => exact hs
    | removeObserver o => exact hs
    | setWeatherData t h p => rfl
    | notifyObservers => exact hs

/-- An observer that is not registered and is not added is never called. -/
theorem run_not_called (s : WeatherStation F) (L : Observer) (ops : List (Op F))
    (hs : L ∉ s.observers) (hadd : Op.addObserver L ∉ ops) :
    ∀ u ∈ (run s ops).2, u.observer ≠ L := by
  induction ops generalizing s with
  | nil => simp [run]
  | cons op rest ih =>
    have hop : op ≠ Op.addObserver L := fun h => hadd (by simp [h])
    have hrest : Op.addObserver L ∉ rest := fun h => hadd (by simp [h])
    have hnext : L ∉ (step s op).1.observers := by
      cases op with
      | addObserver o =>
        have : o ≠ L := fun h => hop (by rw [h])
        simp [step, WeatherStation.addObserver, hs, Ne.symm this]
      | removeObserver o =>
        simp only [step]
        rw [removeObserver_observers]
        intro hmem
        exact hs (List.mem_of_mem_filter hmem)
      | setWeatherData t h p => simpa [step, WeatherStation.setWeatherData] using hs
      | notifyObservers => simpa [step] using hs
    intro u hu
    simp only [run, List.mem_append] at hu
    rcases hu with hu | hu
    · intro h
      exact hnext (h ▸ step_calls_observer s op u hu)
    · exact ih (step s op).1 hnext hrest u hu

/-- The calls made by `setWeatherData`, as a map over the registry. -/
theorem setWeatherData_calls (s : WeatherStation F) (t h p : F) :
    (s.setWeatherData t h p).2
      = s.observers.map (fun l => (⟨l, some t, some h, some p⟩ : Update F)) := by
  simp [WeatherStation.setWeatherData, WeatherStation.notifyObservers, notifyLoop_eq_map]

/-- A run of `setWeatherData` calls leaves the registry as it was. -/
theorem run_sets_observers (s : WeatherStation F) (sets : List (F × F × F)) :
    (run s (sets.map (fun v => Op.setWeatherData v.1 v.2.1 v.2.2))).1.observers
      = s.observers := by
  induction sets generalizing s with
  | nil => rfl
  | cons v rest ih =>
    simp only [List.map_cons, run]
    rw [ih]
    rfl

/-- A registered observer stays registered as long as it is not removed. -/
theorem run_keeps_registered (s : WeatherStation F) (L : Observer) (ops : List (Op F))
    (hs : L ∈ s.observers) (hrem : Op.removeObserver L ∉ ops) :
    L ∈ (run s ops).1.observers := by
  induction ops generalizing s with
  | nil => simpa [run] using hs
  | cons op rest ih =>
    have hop : op ≠ Op.removeObserver L := fun h => hrem (by simp [h])
    have hrest : Op.removeObserver L ∉ rest := fun h => hrem (by simp [h])
    simp only [run]
    apply ih _ _ hrest
    cases op with
    | addObserver o => simp [step, WeatherStation.addObserver, hs]
    | removeObserver o =>
      have hne : L ≠ o := fun h => hop (by rw [h])
      simp only [step]
      rw [removeObserver_observers]
      exact List.mem_filter.mpr ⟨hs, by simpa using hne⟩
    | setWeatherData t h p => simpa [step, WeatherStation.setWeatherData] using hs
    | notifyObservers => simpa [step] using hs

/-- With observers that do not call back, the loop over the live storage makes
the same calls as the loop over the elements. -/
theorem notifyLoopLive_passive (t h p : Option F) (n it : Nat) (v : LiveVector)
    (hlen : it + n = v.slots.length) :
    (notifyLoopLive (fun _ => []) t h p n it v).2 = notifyLoop t h p (v.slots.drop it) := by
  induction n generalizing it with
  | zero =>
    have : v.slots.drop it = [] := List.drop_of_length_le (by omega)
    simp [notifyLoopLive, this, notifyLoop]
  | succ n ih =>
    have hlt : it < v.slots.length := by omega
    unfold notifyLoopLive
    rw [List.getElem?_eq_getElem hlt]
    simp only [List.foldl_nil]
    rw [ih (it + 1) (by omega), List.drop_eq_getElem_cons hlt]
    rfl

theorem notifyLoopLive_passive_vector (t h p : Option F) (n it : Nat) (v : LiveVector) :
    (notifyLoopLive (fun _ => []) t h p n it v).1 = v := by
  induction n generalizing it with
  | zero => rfl
  | succ n ih =>
    unfold notifyLoopLive
    split
    · rfl
    · simp only [List.foldl_nil]
      exact ih (it + 1)

/-- With observers that only display, the model with call-backs is the plain
`setWeatherData`. -/
theorem setWeatherDataLive_passive (s : WeatherStation F) (t h p : F) :
    s.setWeatherDataLive (fun _ => []) t h p = s.setWeatherData t h p := by
  unfold WeatherStation.setWeatherDataLive WeatherStation.setWeatherData
    WeatherStation.notifyObservers
  simp only [notifyLoopLive_passive_vector]
  rw [notifyLoopLive_passive _ _ _ _ _ _ (by simp)]
  simp

/-! ## The claims -/

/-- C1: `setWeatherData(t,h,p)` stores exactly `(t,h,p)`, leaves the registry as
it is, and before returning calls `update(t,h,p)` on every registered listener,
once per registry entry, in registration order; with an empty registry it makes
no call, and after two successive calls the stored state is that of the second. -/
theorem setWeatherData_stores_then_notifies (s : WeatherStation F) (t h p : F) :
    (s.setWeatherData t h p).1
        = { observers := s.observers, temperature := some t, humidity := some h,
            pressure := some p } ∧
      (s.setWeatherData t h p).2
        = s.observers.map (fun l => (⟨l, some t, some h, some p⟩ : Update F)) ∧
      (s.observers = [] → (s.setWeatherData t h p).2 = []) ∧
      ∀ t2 h2 p2 : F,
        ((s.setWeatherData t h p).1.setWeatherData t2 h2 p2).1.fields
          = (some t2, some h2, some p2) := by
  refine ⟨rfl, setWeatherData_calls s t h p, ?_, fun _ _ _ => rfl⟩
  · intro hnil
    simp [WeatherStation.setWeatherData, WeatherStation.notifyObservers, hnil, notifyLoop]

/-- C1, on the first call of `main`: phone then desktop are called with the
triple, and the triple is stored. -/
theorem setWeatherData_stores_then_notifies_witness :
    (WeatherStation.setWeatherData
        (WeatherStation.fresh.addObserver phoneDisplay |>.addObserver desktopDisplay)
        f22_5 f65_0 f1013_2).2
      = [⟨phoneDisplay, some f22_5, some f65_0, some f1013_2⟩,
         ⟨desktopDisplay, some f22_5, some f65_0, some f1013_2⟩] :=
  (setWeatherData_stores_then_notifies
    (WeatherStation.fresh.addObserver phoneDisplay |>.addObserver desktopDisplay)
    f22_5 f65_0 f1013_2).2.1

/-- C2: `removeObserver(l)` leaves the registry filtered by "not equal to `l`":
every occurrence of `l` is gone, the other listeners keep their order and
multiplicity; the stored fields are untouched. -/
theorem removeObserver_eq_filter (s : WeatherStation F) (l : Observer) :
    (s.removeObserver l).observers = s.observers.filter (fun x => x ≠ l) ∧
      l ∉ (s.removeObserver l).observers ∧
      (∀ x, x ≠ l → (s.removeObserver l).observers.count x = s.observers.count x) ∧
      (s.removeObserver l).observers.Sublist s.observers ∧
      (s.removeObserver l).fields = s.fields := by
  rw [removeObserver_observers]
  refine ⟨rfl, ?_, ?_, List.filter_sublist _, rfl⟩
  · simp [List.mem_filter]
  · intro x hx
    rw [List.count_filter]
    simpa using hx

/-- C2, on a registry where the listener was added three times. -/
theorem removeObserver_eq_filter_witness :
    (WeatherStation.removeObserver
        ({ observers := [2, 1, 2, 3, 2], temperature := none, humidity := none,
           pressure := none } : WeatherStation Nat) 2).observers.count 1 = 1 :=
  ((removeObserver_eq_filter
      ({ observers := [2, 1, 2, 3, 2], temperature := none, humidity := none,
         pressure := none } : WeatherStation Nat) 2).2.2.1 1 (by decide)).trans (by decide)

/-- C3: `addObserver(l)` on registry `r` yields `r` followed by `l` (no duplicate
is rejected, nothing is reordered), and the calls `addObserver(a1)`, ...,
`addObserver(ak)` on a fresh station yield exactly the registry `[a1,...,ak]`. -/
theorem addObserver_appends (s : WeatherStation F) (l : Observer) (as : List Observer) :
    (s.addObserver l).observers = s.observers ++ [l] ∧
      (run s (as.map Op.addObserver)).1.observers = s.observers ++ as ∧
      (run (WeatherStation.fresh : WeatherStation F) (as.map Op.addObserver)).1.observers
        = as := by
  have key : ∀ (s : WeatherStation F),
      (run s (as.map Op.addObserver)).1.observers = s.observers ++ as := by
    induction as with
    | nil => intro s; simp [run]
    | cons a rest ih =>
      intro s
      simp only [List.map_cons, run, step]
      rw [ih]
      simp [WeatherStation.addObserver]
  exact ⟨rfl, key s, by simpa [WeatherStation.fresh] using key WeatherStation.fresh⟩

/-- C4: after `removeObserver(L)`, whatever sequence of public calls follows, as
long as it contains no `addObserver(L)`, no `update` call goes to `L`. -/
theorem removed_observer_never_called (s : WeatherStation F) (L : Observer)
    (ops : List (Op F)) (hadd : Op.addObserver L ∉ ops) :
    ∀ u ∈ (run s (Op.removeObserver L :: ops)).2, u.observer ≠ L := by
  have hrem : L ∉ (s.removeObserver L).observers := by
    rw [removeObserver_observers]
    simp [List.mem_filter]
  intro u hu
  simp only [run, step, List.nil_append] at hu
  exact run_not_called (s.removeObserver L) L ops hrem hadd u hu

/-- C4, on the scenario of `main`: phone and desktop registered, one
`setWeatherData`, desktop removed, a second `setWeatherData`: the second pass
calls only the phone, with the new triple, and the desktop never again. -/
theorem removed_observer_never_called_witness :
    Op.addObserver desktopDisplay ∉ [Op.setWeatherData f24_5 f55_0 f1010_0] ∧
      (run (run (WeatherStation.fresh : WeatherStation Nat)
          [Op.addObserver phoneDisplay, Op.addObserver desktopDisplay,
           Op.setWeatherData f22_5 f65_0 f1013_2]).1
        [Op.removeObserver desktopDisplay, Op.setWeatherData f24_5 f55_0 f1010_0]).2
        = [⟨phoneDisplay, some f24_5, some f55_0, some f1010_0⟩] ∧
      ∀ u ∈ (run (run (WeatherStation.fresh : WeatherStation Nat)
          [Op.addObserver phoneDisplay, Op.addObserver desktopDisplay,
           Op.setWeatherData f22_5 f65_0 f1013_2]).1
        [Op.removeObserver desktopDisplay, Op.setWeatherData f24_5 f55_0 f1010_0]).2,
        u.observer ≠ desktopDisplay :=
  ⟨by simp, by decide,
    removed_observer_never_called _ desktopDisplay [Op.setWeatherData f24_5 f55_0 f1010_0]
      (by simp)⟩

/-- C5: `removeObserver(l)` for a listener that is not registered returns
normally (the method is total and has no error result), makes no call and leaves
the whole station, registry and stored fields, as it was; and for every `l`,
removing twice gives the same station as removing once. -/
theorem removeObserver_absent_noop (s : WeatherStation F) (l : Observer) :
    (l ∉ s.observers → step s (Op.removeObserver l) = (s, [])) ∧
      (s.removeObserver l).removeObserver l = s.removeObserver l := by
  have hfix : ∀ s1 : WeatherStation F, l ∉ s1.observers → s1.removeObserver l = s1 := by
    intro s1 h
    have hobs := removeObserver_observers s1 l
    have hfil : s1.observers.filter (fun x => x ≠ l) = s1.observers := by
      rw [List.filter_eq_self]
      intro a ha
      have : a ≠ l := fun hal => h (hal ▸ ha)
      simpa using this
    rw [hfil] at hobs
    cases s1
    simp only [WeatherStation.removeObserver] at hobs ⊢
    simp only [hobs]
  refine ⟨fun h => ?_, ?_⟩
  · simp only [step]
    rw [hfix s h]
  · apply hfix
    rw [removeObserver_observers]
    simp [List.mem_filter]

/-- C5, on the station of `main` after both displays were registered: removing
an observer that was never added changes nothing. -/
theorem removeObserver_absent_noop_witness :
    (7 : Observer) ∉ (WeatherStation.fresh.addObserver phoneDisplay
        |>.addObserver desktopDisplay : WeatherStation Nat).observers ∧
      step (WeatherStation.fresh.addObserver phoneDisplay
        |>.addObserver desktopDisplay : WeatherStation Nat) (Op.removeObserver 7)
        = ((WeatherStation.fresh.addObserver phoneDisplay
        |>.addObserver desktopDisplay : WeatherStation Nat), []) :=
  ⟨by decide, (removeObserver_absent_noop _ 7).1 (by decide)⟩

/-- C6: `addObserver(L)` makes no `update` call and leaves the stored fields
unchanged; after `removeObserver(L)` then `addObserver(L)`, however many
`setWeatherData` calls have followed, the next `setWeatherData(t,h,p)` calls the
other registered listeners in their order and then `L.update(t,h,p)`, last; and
after any later public calls that do not remove `L` again, `setWeatherData(t,h,p)`
still calls `L.update(t,h,p)`. -/
theorem readded_observer_called_last (s : WeatherStation F) (L : Observer) :
    (step s (Op.addObserver L)).2 = [] ∧
      (s.addObserver L).fields = s.fields ∧
      (∀ (sets : List (F × F × F)) (t h p : F),
        ((run ((s.removeObserver L).addObserver L)
            (sets.map (fun v => Op.setWeatherData v.1 v.2.1 v.2.2))).1.setWeatherData t h p).2
          = (s.observers.filter (fun x => x ≠ L)).map
              (fun l => (⟨l, some t, some h, some p⟩ : Update F))
            ++ [⟨L, some t, some h, some p⟩]) ∧
      ∀ (ops : List (Op F)) (t h p : F), Op.removeObserver L ∉ ops →
        (⟨L, some t, some h, some p⟩ : Update F)
          ∈ ((run ((s.removeObserver L).addObserver L) ops).1.setWeatherData t h p).2 := by
  refine ⟨rfl, rfl, ?_, ?_⟩
  · intro sets t h p
    rw [setWeatherData_calls, run_sets_observers]
    simp only [WeatherStation.addObserver]
    rw [removeObserver_observers]
    simp
  · intro ops t h p hrem
    rw [setWeatherData_calls]
    apply List.mem_map.mpr
    refine ⟨L, run_keeps_registered _ L ops ?_ hrem, rfl⟩
    simp [WeatherStation.addObserver]

/-- C6, on the station of `main`: the desktop is removed and added again, a
third observer is added, and the next `setWeatherData` calls the desktop. -/
theorem readded_observer_called_last_witness :
    Op.removeObserver desktopDisplay ∉ [(Op.addObserver 3 : Op Nat)] ∧
      (⟨desktopDisplay, some f24_5, some f55_0, some f1010_0⟩ : Update Nat)
        ∈ ((run (((WeatherStation.fresh.addObserver phoneDisplay
            |>.addObserver desktopDisplay).removeObserver desktopDisplay).addObserver
              desktopDisplay) [Op.addObserver 3]).1.setWeatherData f24_5 f55_0 f1010_0).2 :=
  ⟨by simp,
    (readded_observer_called_last
      (WeatherStation.fresh.addObserver phoneDisplay |>.addObserver desktopDisplay)
      desktopDisplay).2.2.2 [Op.addObserver 3] f24_5 f55_0 f1010_0 (by simp)⟩

/-- C7 as stated fails: the registry reached by `addObserver(7)`, `addObserver(7)`
contains `7`, and one `setWeatherData` then calls `7.update` twice, not once. -/
theorem duplicate_observer_called_twice :
    (7 : Observer) ∈ (run (WeatherStation.fresh : WeatherStation Nat)
        [Op.addObserver 7, Op.addObserver 7]).1.observers ∧
      ((run (WeatherStation.fresh : WeatherStation Nat)
        [Op.addObserver 7, Op.addObserver 7]).1.setWeatherData f22_5 f65_0 f1013_2).2
        = [⟨7, some f22_5, some f65_0, some f1013_2⟩,
           ⟨7, some f22_5, some f65_0, some f1013_2⟩] ∧
      ¬ ((((run (WeatherStation.fresh : WeatherStation Nat)
        [Op.addObserver 7, Op.addObserver 7]).1.setWeatherData f22_5 f65_0 f1013_2).2.filter
          (fun u => u.observer = 7)).length = 1) := by
  decide

/-- C7, amended: one `setWeatherData(t,h,p)` calls `L.update(t,h,p)` once for
each occurrence of `L` in the registry: the calls to `L` are as many copies of
that call as `L` has entries, so exactly one when `L` is registered once. -/
theorem calls_per_registry_entry (s : WeatherStation F) (L : Observer) (t h p : F) :
    (s.setWeatherData t h p).2.filter (fun u => u.observer = L)
        = List.replicate (s.observers.count L) ⟨L, some t, some h, some p⟩ ∧
      (s.observers.count L = 1 →
        (s.setWeatherData t h p).2.filter (fun u => u.observer = L)
          = [⟨L, some t, some h, some p⟩]) := by
  have key : (s.setWeatherData t h p).2.filter (fun u => u.observer = L)
      = List.replicate (s.observers.count L) ⟨L, some t, some h, some p⟩ := by
    rw [setWeatherData_calls]
    induction s.observers with
    | nil => simp
    | cons o rest ih =>
      by_cases ho : o = L
      · subst ho
        simp only [List.map_cons, List.count_cons_self, List.replicate_succ]
        rw [List.filter_cons_of_pos (by simp), ih]
      · simp only [List.map_cons]
        rw [List.filter_cons_of_neg (by simpa using ho), ih, List.count_cons_of_ne (Ne.symm ho)]
  refine ⟨key, fun h1 => ?_⟩
  rw [key, h1]
  rfl

/-- C7 amended, on the registry of `main`: the phone, registered once, is called
exactly once. -/
theorem calls_per_registry_entry_witness :
    (WeatherStation.setWeatherData
        (WeatherStation.fresh.addObserver phoneDisplay |>.addObserver desktopDisplay)
        f22_5 f65_0 f1013_2).2.filter (fun u => u.observer = phoneDisplay)
      = [⟨phoneDisplay, some f22_5, some f65_0, some f1013_2⟩] :=
  (calls_per_registry_entry
    (WeatherStation.fresh.addObserver phoneDisplay |>.addObserver desktopDisplay)
    phoneDisplay f22_5 f65_0 f1013_2).2 (by decide)

/-- C8 as stated fails: on a fresh station, `addObserver(1)` followed by the
public `notifyObservers()` calls observer `1` although no `setWeatherData` has
stored anything; the call carries the never-assigned fields. -/
theorem notified_before_any_setWeatherData :
    lastSet [(Op.addObserver 1 : Op Nat), Op.notifyObservers] = none ∧
      (run (WeatherStation.fresh : WeatherStation Nat)
        [Op.addObserver 1, Op.notifyObservers]).2 = [⟨1, none, none, none⟩] := by
  decide

/-- C8, amended: after any sequence `before` of public calls on a fresh station,
`setWeatherData(t,h,p)` calls every registered listener, once per registry entry
and in order, with `(t,h,p)`; the public `notifyObservers()` calls every
registered listener, once per registry entry and in order, with the stored
fields, which are the arguments of the most recent `setWeatherData` when there
has been one, and it makes these calls also when there has been none;
`addObserver` and `removeObserver` make no call; so every `update` call carries
the fields stored at that moment. -/
theorem calls_carry_last_stored (before : List (Op F)) :
    (∀ t h p : F,
      (step (run (WeatherStation.fresh : WeatherStation F) before).1
          (Op.setWeatherData t h p)).2
        = (run (WeatherStation.fresh : WeatherStation F) before).1.observers.map
            (fun o => (⟨o, some t, some h, some p⟩ : Update F))) ∧
      (step (run (WeatherStation.fresh : WeatherStation F) before).1 Op.notifyObservers).2
        = (run (WeatherStation.fresh : WeatherStation F) before).1.observers.map
            (fun o => (⟨o, (storedAs (lastSet before)).1, (storedAs (lastSet before)).2.1,
              (storedAs (lastSet before)).2.2⟩ : Update F)) ∧
      (∀ o : Observer,
        (step (run (WeatherStation.fresh : WeatherStation F) before).1 (Op.addObserver o)).2 = [] ∧
        (step (run (WeatherStation.fresh : WeatherStation F) before).1
          (Op.removeObserver o)).2 = []) ∧
      ∀ (op : Op F),
        ∀ u ∈ (step (run (WeatherStation.fresh : WeatherStation F) before).1 op).2,
          u.args = storedAs (lastSet (before ++ [op])) := by
  refine ⟨fun t h p => setWeatherData_calls _ t h p, ?_, fun _ => ⟨rfl, rfl⟩, ?_⟩
  · have h := run_fields (WeatherStation.fresh : WeatherStation F) before none rfl
    simp only [step, WeatherStation.notifyObservers, notifyLoop_eq_map]
    have ht : (run (WeatherStation.fresh : WeatherStation F) before).1.temperature
        = (storedAs (lastSet before)).1 := congrArg (fun x => x.1) h
    have hh : (run (WeatherStation.fresh : WeatherStation F) before).1.humidity
        = (storedAs (lastSet before)).2.1 := congrArg (fun x => x.2.1) h
    have hp : (run (WeatherStation.fresh : WeatherStation F) before).1.pressure
        = (storedAs (lastSet before)).2.2 := congrArg (fun x => x.2.2) h
    rw [ht, hh, hp]
  · intro op u hu
    rw [step_calls_args _ op u hu]
    have h := run_fields (WeatherStation.fresh : WeatherStation F) (before ++ [op]) none rfl
    rw [run_append] at h
    simpa [run, lastSet] using h

/-- C8 amended, on the phone of `main`: registered on a fresh station, a direct
`notifyObservers()` calls it although nothing was stored; and after
`setWeatherData(22.5, 65.0, 1013.2)` a direct `notifyObservers()` calls it with
that triple. -/
theorem calls_carry_last_stored_witness :
    (step (run (WeatherStation.fresh : WeatherStation Nat) [Op.addObserver phoneDisplay]).1
        Op.notifyObservers).2.map (fun u => u.observer) = [phoneDisplay] ∧
      (step (run (WeatherStation.fresh : WeatherStation Nat)
          [Op.addObserver phoneDisplay, Op.setWeatherData f22_5 f65_0 f1013_2]).1
        Op.notifyObservers).2 = [⟨phoneDisplay, some f22_5, some f65_0, some f1013_2⟩] ∧
      (⟨phoneDisplay, some f22_5, some f65_0, some f1013_2⟩ : Update Nat).args
        = storedAs (lastSet ([Op.addObserver phoneDisplay,
            Op.setWeatherData f22_5 f65_0 f1013_2] ++ [Op.notifyObservers])) :=
  ⟨((calls_carry_last_stored [(Op.addObserver phoneDisplay : Op Nat)]).2.1 ▸ by decide),
   (calls_carry_last_stored
      [Op.addObserver phoneDisplay, Op.setWeatherData f22_5 f65_0 f1013_2]).2.1.trans
        (by decide),
   (calls_carry_last_stored
      [Op.addObserver phoneDisplay, Op.setWeatherData f22_5 f65_0 f1013_2]).2.2.2
      Op.notifyObservers ⟨phoneDisplay, some f22_5, some f65_0, some f1013_2⟩ (by decide)⟩

/-- C9 fails on the code: with registry `[1, 2, 3]` and observer `1` calling
`removeObserver(this)` from its `update`, one `setWeatherData` calls `1`, then
`3`, then `3` again: observer `2`, registered when delivery began and never
removed, is skipped, and observer `3` is visited twice. The registry afterwards
is `[2, 3]`. With registry `[1, 2]` and observer `1` removing observer `2`, the
same pass still calls `2`, removed before its turn. -/
theorem self_removal_corrupts_pass :
    (WeatherStation.setWeatherDataLive selfRemoving
        ({ observers := [1, 2, 3], temperature := none, humidity := none,
           pressure := none } : WeatherStation Nat) f22_5 f65_0 f1013_2).2
      = [⟨1, some f22_5, some f65_0, some f1013_2⟩,
         ⟨3, some f22_5, some f65_0, some f1013_2⟩,
         ⟨3, some f22_5, some f65_0, some f1013_2⟩] ∧
    (WeatherStation.setWeatherDataLive selfRemoving
        ({ observers := [1, 2, 3], temperature := none, humidity := none,
           pressure := none } : WeatherStation Nat) f22_5 f65_0 f1013_2).1.observers
      = [2, 3] ∧
    (WeatherStation.setWeatherDataLive removingNext
        ({ observers := [1, 2], temperature := none, humidity := none,
           pressure := none } : WeatherStation Nat) f22_5 f65_0 f1013_2).2
      = [⟨1, some f22_5, some f65_0, some f1013_2⟩,
         ⟨2, some f22_5, some f65_0, some f1013_2⟩] := by
  decide

end WeatherStationModel

namespace BuilderModel

/-- C10: `build()` leaves the builder unchanged; it fails exactly when the CPU
string is empty or the RAM equals 0; the CPU check comes first, so an empty CPU
reports "CPU must be specified" whatever the RAM; a non-empty CPU with RAM 0
reports "RAM must be specified"; otherwise, for any non-zero RAM (negative
included), it returns the computer whose six members equal the builder's;
peripherals are kept in the order `addPeripheral` was called. -/
theorem build_fails_iff_cpu_empty_or_ram_zero (b : ComputerBuilder) :
    b.build.1 = b ∧
      ((∃ e, b.build.2 = Except.error e) ↔ (b.m_cpu = "" ∨ b.m_ram = 0)) ∧
      (b.m_cpu = "" → b.build.2 = Except.error "CPU must be specified") ∧
      (b.m_cpu ≠ "" → b.m_ram = 0 → b.build.2 = Except.error "RAM must be specified") ∧
      (b.m_cpu ≠ "" → b.m_ram ≠ 0 →
        b.build.2 = Except.ok
          { cpu := b.m_cpu, ram := b.m_ram, storage := b.m_storage,
            storageType := b.m_storageType, gpu := b.m_gpu,
            peripherals := b.m_peripherals }) ∧
      ∀ ps : List String,
        (ps.foldl ComputerBuilder.addPeripheral b).m_peripherals = b.m_peripherals ++ ps := by
  refine ⟨?_, ?_, ?_, ?_, ?_, ?_⟩
  · unfold ComputerBuilder.build
    split_ifs <;> rfl
  · unfold ComputerBuilder.build
    split_ifs with h1 h2
    · simp [h1]
    · simp [h2]
    · simp [h1, h2]
  · intro h1
    simp [ComputerBuilder.build, h1]
  · intro h1 h2
    simp [ComputerBuilder.build, h1, h2]
  · intro h1 h2
    simp [ComputerBuilder.build, h1, h2, Computer.ofBuilder]
  · intro ps
    induction ps generalizing b with
    | nil => simp
    | cons x rest ih =>
      simp only [List.foldl_cons]
      rw [ih]
      simp [ComputerBuilder.addPeripheral]

/-- C10, on the gaming computer of `ComputerDirector` and on a builder with a
negative RAM value: both are built. -/
theorem build_fails_iff_cpu_empty_or_ram_zero_witness :
    gamingBuilder.build.2 = Except.ok
        { cpu := "Intel Core i9", ram := 32, storage := "1000", storageType := "SSD",
          gpu := "NVIDIA RTX 4090",
          peripherals := ["Mechanical Keyboard", "Gaming Mouse", "Gaming Headset"] } ∧
      ((ComputerBuilder.create.setCPU "Z80").setRAM (-4)).build.2 = Except.ok
        { cpu := "Z80", ram := -4, storage := "", storageType := "", gpu := "",
          peripherals := [] } :=
  ⟨(build_fails_iff_cpu_empty_or_ram_zero gamingBuilder).2.2.2.2.1 (by decide) (by decide),
   (build_fails_iff_cpu_empty_or_ram_zero
      ((ComputerBuilder.create.setCPU "Z80").setRAM (-4))).2.2.2.2.1 (by decide) (by decide)⟩

end BuilderModel
